import Mathlib

/-!
# Shallow embedding of the alug-backend affiliate/payout core

This file embeds the commission-accrual, attribution and payout logic of
`src/server.js` (an Express + PostgreSQL backend) as pure Lean functions over
an explicit database state, and settles the specification claims about it.

Money amounts (`DECIMAL(10,2)` columns) are modelled as rationals (`Rat`).
Each HTTP handler that the claims mention becomes a function
`DB → args → result × DB`, with the returned `DB` unchanged whenever the
handler answers an error before reaching its `INSERT`/`UPDATE`.

The PostgreSQL schema in `createTables` declares
`REFERENCES users(id)` / `REFERENCES products(id)` foreign keys; an `INSERT`
violating them raises, which each handler's `catch` turns into a generic
HTTP 500 response.  That is modelled by the `serverError` outcome below.
-/

/-- A product row: only the columns the claims touch
(`id`, `commission_type`, `commission_value`). -/
structure Product where
  id : Nat
  commissionType : String
  commissionValue : Rat
  deriving Repr, DecidableEq

/-- An `affiliate_links` row. -/
structure Link where
  id : Nat
  userId : Nat
  productId : Nat
  linkCode : String
  deriving Repr, DecidableEq

/-- A `clicks` row. -/
structure Click where
  id : Nat
  linkId : Nat
  ipAddress : String
  userAgent : String
  deriving Repr, DecidableEq

/-- A `conversions` row. -/
structure Conversion where
  id : Nat
  linkId : Nat
  amount : Rat
  commission : Rat
  deriving Repr, DecidableEq

/-- A `payouts` row. -/
structure Payout where
  id : Nat
  userId : Nat
  amount : Rat
  status : String
  paymentMethod : String
  paymentDetails : String
  deriving Repr, DecidableEq

/-- The database state: the tables the claims touch, plus the `SERIAL`
counters that allocate fresh primary keys.  Users are represented by their
ids only (nothing else about a user matters to the claims). -/
structure DB where
  users : List Nat
  products : List Product
  links : List Link
  clicks : List Click
  conversions : List Conversion
  payouts : List Payout
  nextLinkId : Nat
  nextClickId : Nat
  nextConversionId : Nat
  nextPayoutId : Nat
  deriving Repr, DecidableEq

/-- The error outcomes the embedded handlers can produce.
`notFound` is an HTTP 404, `invalidAmount` and `insufficientBalance` are the
two HTTP 400 responses of `POST /api/payouts/request`, and `serverError` is
the generic HTTP 500 produced when a database statement raises (for the
handlers here: a foreign-key violation or a unique-key conflict). -/
inductive ApiError where
  | notFound (msg : String)
  | invalidAmount (msg : String)
  | insufficientBalance (msg : String)
  | serverError (msg : String)
  deriving Repr, DecidableEq

/-- `SELECT * FROM affiliate_links WHERE user_id = $1 AND product_id = $2`
(first row, matching `rows[0]`). -/
def findLinkByPair (db : DB) (userId productId : Nat) : Option Link :=
  db.links.find? (fun l => l.userId == userId && l.productId == productId)

/-- `SELECT ... FROM affiliate_links WHERE link_code = $1` (first row). -/
def findLinkByCode (db : DB) (code : String) : Option Link :=
  db.links.find? (fun l => l.linkCode == code)

/-- `SELECT * FROM products WHERE id = $1` (first row). -/
def findProduct (db : DB) (id : Nat) : Option Product :=
  db.products.find? (fun p => p.id == id)

/-- The link code allocated by `POST /api/affiliate/generate`:
`` `${userId}-${productId}-${Date.now()}` ``.  `now` stands for the
millisecond timestamp. -/
def mkLinkCode (userId productId now : Nat) : String :=
  toString userId ++ "-" ++ toString productId ++ "-" ++ toString now

/-- `POST /api/affiliate/generate`: look up an existing link for
`(userId, productId)` and return it if present; otherwise `INSERT` a new
link with a timestamp-derived code.  The handler itself never checks that
the product (or user) exists: a dangling reference makes the `INSERT` hit a
foreign-key constraint and the handler's `catch` answers HTTP 500, as does a
`link_code` unique-key conflict. -/
def createOrGetLink (db : DB) (userId productId now : Nat) :
    Except ApiError Link × DB :=
  match findLinkByPair db userId productId with
  | some l => (.ok l, db)
  | none =>
    let code := mkLinkCode userId productId now
    if db.users.contains userId
        && db.products.any (fun p => p.id == productId)
        && !(db.links.any (fun l => l.linkCode == code)) then
      let l : Link :=
        { id := db.nextLinkId, userId := userId, productId := productId,
          linkCode := code }
      (.ok l, { db with links := db.links ++ [l],
                        nextLinkId := db.nextLinkId + 1 })
    else
      (.error (.serverError "Failed to generate affiliate link"), db)

/-- `POST /api/track/click`: resolve the link code (404 `Link not found` when
it does not resolve), then `INSERT` a click row. -/
def recordClick (db : DB) (linkCode ipAddress userAgent : String) :
    Except ApiError Unit × DB :=
  match findLinkByCode db linkCode with
  | none => (.error (.notFound "Link not found"), db)
  | some l =>
    let c : Click :=
      { id := db.nextClickId, linkId := l.id, ipAddress := ipAddress,
        userAgent := userAgent }
    (.ok (), { db with clicks := db.clicks ++ [c],
                       nextClickId := db.nextClickId + 1 })

/-- The commission computation of `POST /api/track/conversion`:
`(amount * commission_value) / 100` when `commission_type === 'percentage'`,
and `commission_value` itself on the `else` branch (every other type). -/
def computeCommission (commissionType : String) (commissionValue amount : Rat) :
    Rat :=
  if commissionType == "percentage" then amount * commissionValue / 100
  else commissionValue

/-- The lookup of `POST /api/track/conversion`:
`affiliate_links JOIN products ON al.product_id = p.id WHERE link_code = $1`.
The join yields no row when either the link code is absent or the referenced
product row is (the latter cannot happen in a state respecting the schema's
foreign keys, since deleting a product cascade-deletes its links). -/
def resolveLinkProduct (db : DB) (code : String) : Option (Link × Product) :=
  match findLinkByCode db code with
  | none => none
  | some l =>
    match findProduct db l.productId with
    | none => none
    | some p => some (l, p)

/-- `POST /api/track/conversion`: resolve the code through the
link–product join (404 `Link not found` otherwise), compute the commission
from the product's rule at this moment, and `INSERT` the conversion row
carrying the computed commission.  Returns the commission. -/
def recordConversion (db : DB) (linkCode : String) (amount : Rat) :
    Except ApiError Rat × DB :=
  match resolveLinkProduct db linkCode with
  | none => (.error (.notFound "Link not found"), db)
  | some (l, p) =>
    let commission := computeCommission p.commissionType p.commissionValue amount
    let c : Conversion :=
      { id := db.nextConversionId, linkId := l.id, amount := amount,
        commission := commission }
    (.ok commission, { db with conversions := db.conversions ++ [c],
                               nextConversionId := db.nextConversionId + 1 })

/-- `SUM(c.commission) FROM conversions c JOIN affiliate_links al ON
c.link_id = al.id WHERE al.user_id = $1`, with `COALESCE(..., 0)`. -/
def sumCommissionsFor (db : DB) (userId : Nat) : Rat :=
  ((db.conversions.filter (fun c =>
      db.links.any (fun l => l.id == c.linkId && l.userId == userId))).map
    Conversion.commission).sum

/-- `SELECT SUM(amount) FROM payouts WHERE user_id = $1 AND status = 'paid'`,
with `COALESCE(..., 0)`. -/
def sumPaidPayoutsFor (db : DB) (userId : Nat) : Rat :=
  ((db.payouts.filter (fun p =>
      p.userId == userId && p.status == "paid")).map Payout.amount).sum

/-- The `available_balance` computed by `GET /api/payouts/balance`:
total commissions minus the sum of payouts with `status = 'paid'`. -/
def balanceEndpointBalance (db : DB) (userId : Nat) : Rat :=
  sumCommissionsFor db userId - sumPaidPayoutsFor db userId

/-- The `available_balance` computed inside `POST /api/payouts/request`
before the insert: total commissions minus the sum of payouts with
`status = 'paid'`. -/
def requestPayoutBalance (db : DB) (userId : Nat) : Rat :=
  sumCommissionsFor db userId - sumPaidPayoutsFor db userId

/-- The balance rule the specification mandates, stated from the spec's words
for comparison with the code's two balance queries: total commissions minus
the sum of payouts in any non-rejected status (`pending`, `approved`,
`paid`). -/
def specAvailableBalance (db : DB) (userId : Nat) : Rat :=
  sumCommissionsFor db userId -
    ((db.payouts.filter (fun p =>
        p.userId == userId &&
          (p.status == "pending" || p.status == "approved" ||
            p.status == "paid"))).map Payout.amount).sum

/-- `POST /api/payouts/request`: reject amounts below the €10 minimum
(HTTP 400 `Minimum payout amount is €10`), then recompute the available
balance (subtracting only `status = 'paid'` payouts) and reject when the
requested amount exceeds it (HTTP 400 `Insufficient balance`); otherwise
`INSERT` a payout row, whose `status` column takes the schema default
`'pending'`.  A missing user makes the insert hit the foreign-key constraint
(HTTP 500). -/
def requestPayout (db : DB) (userId : Nat) (amount : Rat)
    (paymentMethod paymentDetails : String) : Except ApiError Payout × DB :=
  if amount < 10 then
    (.error (.invalidAmount "Minimum payout amount is €10"), db)
  else if amount > requestPayoutBalance db userId then
    (.error (.insufficientBalance "Insufficient balance"), db)
  else if db.users.contains userId then
    let p : Payout :=
      { id := db.nextPayoutId, userId := userId, amount := amount,
        status := "pending", paymentMethod := paymentMethod,
        paymentDetails := paymentDetails }
    (.ok p, { db with payouts := db.payouts ++ [p],
                      nextPayoutId := db.nextPayoutId + 1 })
  else
    (.error (.serverError "Failed to request payout"), db)

/-- `PUT /api/products/:id`: `UPDATE products SET ... WHERE id = $11`,
answering 404 `Product not found` when no row matches.  Only the
commission-rule columns are modelled (the other updated columns do not
appear in any claim); no other table is touched. -/
def updateProduct (db : DB) (id : Nat) (commissionType : String)
    (commissionValue : Rat) : Except ApiError Product × DB :=
  match findProduct db id with
  | none => (.error (.notFound "Product not found"), db)
  | some p =>
    let p' : Product :=
      { p with commissionType := commissionType,
               commissionValue := commissionValue }
    (.ok p', { db with products := db.products.map (fun q =>
        if q.id == id then
          { q with commissionType := commissionType,
                   commissionValue := commissionValue }
        else q) })

/-- Number of `affiliate_links` rows for a given `(user_id, product_id)`
pair. -/
def countLinksFor (db : DB) (userId productId : Nat) : Nat :=
  (db.links.filter (fun l => l.userId == userId && l.productId == productId)).length

/-- Referential integrity of `affiliate_links.product_id`: every link row
points at an existing product.  The schema's `REFERENCES products(id)
ON DELETE CASCADE` guarantees this in every reachable database state. -/
def linksReferenceProducts (db : DB) : Bool :=
  db.links.all (fun l => db.products.any (fun p => p.id == l.productId))

/-- Whether a handler outcome is the HTTP 404 `NotFound` response. -/
def isNotFoundResult {α : Type} : Except ApiError α → Bool
  | .error (.notFound _) => true
  | _ => false

/-! ## Concrete database states used by the claims -/

/-- The spec's payout scenario: user 1 has two conversions with commissions
15.00 and 20.00 through link `1-1-100`, and one prior payout of 10.00 with
status `approved`. -/
def scenarioApprovedDB : DB :=
  { users := [1], products := [⟨1, "percentage", 10⟩],
    links := [⟨1, 1, 1, "1-1-100"⟩], clicks := [],
    conversions := [⟨1, 1, 150, 15⟩, ⟨2, 1, 200, 20⟩],
    payouts := [⟨1, 1, 10, "approved", "bank", "iban"⟩],
    nextLinkId := 2, nextClickId := 1, nextConversionId := 3,
    nextPayoutId := 2 }

/-- As `scenarioApprovedDB`, but the prior payout is 30.00 and still
`pending`. -/
def scenarioPendingDB : DB :=
  { users := [1], products := [⟨1, "percentage", 10⟩],
    links := [⟨1, 1, 1, "1-1-100"⟩], clicks := [],
    conversions := [⟨1, 1, 150, 15⟩, ⟨2, 1, 200, 20⟩],
    payouts := [⟨1, 1, 30, "pending", "bank", "iban"⟩],
    nextLinkId := 2, nextClickId := 1, nextConversionId := 3,
    nextPayoutId := 2 }

/-- User 1 with total commissions 35.00 and no payouts yet. -/
def noPayoutDB : DB :=
  { users := [1], products := [⟨1, "percentage", 10⟩],
    links := [⟨1, 1, 1, "1-1-100"⟩], clicks := [],
    conversions := [⟨1, 1, 150, 15⟩, ⟨2, 1, 200, 20⟩],
    payouts := [],
    nextLinkId := 2, nextClickId := 1, nextConversionId := 3,
    nextPayoutId := 1 }

/-- A state with user 1 but an empty products table. -/
def noProductDB : DB :=
  { users := [1], products := [], links := [], clicks := [],
    conversions := [], payouts := [],
    nextLinkId := 1, nextClickId := 1, nextConversionId := 1,
    nextPayoutId := 1 }

/-- The spec's fixed-commission scenario: a product with
`commission_type = 'fixed'` and `commission_value = 15.00`, reachable
through link `1-1-100`. -/
def fixedProductDB : DB :=
  { users := [1], products := [⟨1, "fixed", 15⟩],
    links := [⟨1, 1, 1, "1-1-100"⟩], clicks := [],
    conversions := [], payouts := [],
    nextLinkId := 2, nextClickId := 1, nextConversionId := 1,
    nextPayoutId := 1 }

/-- A product whose `commission_type` is the empty string (e.g. a SQL NULL
read back as neither `'percentage'` nor `'fixed'`). -/
def emptyTypeDB : DB :=
  { users := [1], products := [⟨1, "", 20⟩],
    links := [⟨1, 1, 1, "1-1-100"⟩], clicks := [],
    conversions := [], payouts := [],
    nextLinkId := 2, nextClickId := 1, nextConversionId := 1,
    nextPayoutId := 1 }

/-- User 1 and product 1 exist but no affiliate link does yet. -/
def linkFreeDB : DB :=
  { users := [1], products := [⟨1, "percentage", 10⟩],
    links := [], clicks := [], conversions := [], payouts := [],
    nextLinkId := 1, nextClickId := 1, nextConversionId := 1,
    nextPayoutId := 1 }

/-! ## Claims C1–C3: which payout statuses count against the balance -/

/-- Claim C1: in the code, both balance computations subtract only payouts
with `status = 'paid'`.  With commissions totalling 35.00 and a pending
payout of 30.00, both code paths report 35.00, whereas the rule the claim
states (subtract all non-rejected payouts) yields 5.00. -/
theorem balance_ignores_pending_payouts :
    balanceEndpointBalance scenarioPendingDB 1 = 35 ∧
    requestPayoutBalance scenarioPendingDB 1 = 35 ∧
    specAvailableBalance scenarioPendingDB 1 = 5 ∧
    balanceEndpointBalance scenarioPendingDB 1 ≠ specAvailableBalance scenarioPendingDB 1 := by
  refine ⟨?_, ?_, ?_, ?_⟩ <;>
    · simp +decide [balanceEndpointBalance, requestPayoutBalance, specAvailableBalance,
        sumCommissionsFor, sumPaidPayoutsFor, scenarioPendingDB]
      norm_num

/-- Claim C2: the spec scenario (commissions 15.00 + 20.00, one prior
`approved` payout of 10.00).  The claim demands that a request for 25.01
fail with `InsufficientBalance` since the non-rejected balance is 25.00;
the code subtracts only `paid` payouts, computes 35.00, and accepts both
25.00 and 25.01. -/
theorem requestPayout_accepts_beyond_nonrejected_balance :
    specAvailableBalance scenarioApprovedDB 1 = 25 ∧
    (requestPayout scenarioApprovedDB 1 25 "bank" "iban").1 =
      .ok ⟨2, 1, 25, "pending", "bank", "iban"⟩ ∧
    (requestPayout scenarioApprovedDB 1 (2501/100) "bank" "iban").1 =
      .ok ⟨2, 1, 2501/100, "pending", "bank", "iban"⟩ := by
  refine ⟨?_, ?_, ?_⟩ <;>
    · simp +decide [specAvailableBalance, requestPayout, requestPayoutBalance,
        sumCommissionsFor, sumPaidPayoutsFor, scenarioApprovedDB]
      norm_num

/-- Claim C3, as stated, is false on this source: at a state with a pending
payout of 30.00 the two balance code paths agree on 35.00, so neither of
them subtracts `pending`/`approved` payouts the way the claim says one
does (that rule would give 5.00 here). -/
theorem balance_paths_disagree_counterexample :
    balanceEndpointBalance scenarioPendingDB 1 = requestPayoutBalance scenarioPendingDB 1 ∧
    requestPayoutBalance scenarioPendingDB 1 = 35 ∧
    requestPayoutBalance scenarioPendingDB 1 ≠ specAvailableBalance scenarioPendingDB 1 := by
  refine ⟨rfl, ?_, ?_⟩ <;>
    · simp +decide [balanceEndpointBalance, requestPayoutBalance, specAvailableBalance,
        sumCommissionsFor, sumPaidPayoutsFor, scenarioPendingDB]
      norm_num

/-- Claim C3 amended: the two balance code paths agree — each subtracts
exactly the payouts with `status = 'paid'` — on every database state and
user. -/
theorem balance_paths_agree (db : DB) (userId : Nat) :
    balanceEndpointBalance db userId = requestPayoutBalance db userId := rfl

/-! ## Claim C6: balance after a successful payout request -/

/-- The state after the first successful payout request in the C6 trace. -/
def payout1DB : DB :=
  { users := [1], products := [⟨1, "percentage", 10⟩],
    links := [⟨1, 1, 1, "1-1-100"⟩], clicks := [],
    conversions := [⟨1, 1, 150, 15⟩, ⟨2, 1, 200, 20⟩],
    payouts := [⟨1, 1, 30, "pending", "bank", "iban"⟩],
    nextLinkId := 2, nextClickId := 1, nextConversionId := 3,
    nextPayoutId := 2 }

/-- The state after the second successful payout request in the C6 trace. -/
def payout2DB : DB :=
  { users := [1], products := [⟨1, "percentage", 10⟩],
    links := [⟨1, 1, 1, "1-1-100"⟩], clicks := [],
    conversions := [⟨1, 1, 150, 15⟩, ⟨2, 1, 200, 20⟩],
    payouts := [⟨1, 1, 30, "pending", "bank", "iban"⟩,
                ⟨2, 1, 25, "pending", "bank", "iban"⟩],
    nextLinkId := 2, nextClickId := 1, nextConversionId := 3,
    nextPayoutId := 3 }

/-- Claim C6: starting from commissions totalling 35.00 and no payouts,
two successive `requestPayout` calls of 30.00 and 25.00 both succeed
(the balance check subtracts only `paid` payouts, and both stay `pending`),
after which the non-rejected balance of the claim is 35 − 30 − 25 = −20,
violating the claimed non-negativity. -/
theorem requestPayout_double_spend :
    requestPayout noPayoutDB 1 30 "bank" "iban" =
      (.ok ⟨1, 1, 30, "pending", "bank", "iban"⟩, payout1DB) ∧
    requestPayout payout1DB 1 25 "bank" "iban" =
      (.ok ⟨2, 1, 25, "pending", "bank", "iban"⟩, payout2DB) ∧
    specAvailableBalance payout2DB 1 = -20 := by
  refine ⟨?_, ?_, ?_⟩ <;>
    · simp +decide [requestPayout, requestPayoutBalance, sumCommissionsFor,
        sumPaidPayoutsFor, specAvailableBalance, noPayoutDB, payout1DB, payout2DB]
      norm_num

/-! ## Claim C7: the minimum-payout check -/

/-- Claim C7: for every requested amount below 10.00 (non-positive amounts
included), `requestPayout` answers the `InvalidAmount` error
(`Minimum payout amount is €10`) and leaves the database unchanged — in
particular it inserts no payout row. -/
theorem requestPayout_below_minimum (db : DB) (userId : Nat) (amount : Rat)
    (paymentMethod paymentDetails : String) (h : amount < 10) :
    requestPayout db userId amount paymentMethod paymentDetails =
      (.error (.invalidAmount "Minimum payout amount is €10"), db) := by
  simp [requestPayout, h]

/-- Witness for C7 at the concrete non-positive amount −3. -/
theorem requestPayout_below_minimum_witness :
    requestPayout scenarioApprovedDB 1 (-3) "bank" "iban" =
      (.error (.invalidAmount "Minimum payout amount is €10"), scenarioApprovedDB) :=
  requestPayout_below_minimum scenarioApprovedDB 1 (-3) "bank" "iban" (by norm_num)

/-! ## Claims C4 and C10: the commission rule at conversion time -/

/-- Claim C4: a recorded conversion stores commission
`amount * value / 100` when the product's rule is `percentage` at call time
and `value` itself otherwise (in particular for `fixed`); the stored
conversion rows survive any later `PUT /api/products/:id` commission-rule
update unchanged. -/
theorem recordConversion_commission_correct (db : DB) (code : String)
    (amt : Rat) (l : Link) (pr : Product)
    (h : resolveLinkProduct db code = some (l, pr)) :
    (recordConversion db code amt).1 =
      .ok (if pr.commissionType = "percentage" then amt * pr.commissionValue / 100
        else pr.commissionValue) ∧
    (recordConversion db code amt).2.conversions =
      db.conversions ++ [⟨db.nextConversionId, l.id, amt,
        if pr.commissionType = "percentage" then amt * pr.commissionValue / 100
        else pr.commissionValue⟩] ∧
    ∀ (pid : Nat) (ct : String) (cv : Rat),
      (updateProduct (recordConversion db code amt).2 pid ct cv).2.conversions =
        (recordConversion db code amt).2.conversions := by
  have hcc : computeCommission pr.commissionType pr.commissionValue amt =
      if pr.commissionType = "percentage" then amt * pr.commissionValue / 100
      else pr.commissionValue := by
    by_cases hct : pr.commissionType = "percentage" <;>
      simp [computeCommission, hct]
  refine ⟨?_, ?_, ?_⟩
  · simp [recordConversion, h, hcc]
  · simp [recordConversion, h, hcc]
  · intro pid ct cv
    unfold updateProduct
    cases hfp : findProduct (recordConversion db code amt).2 pid <;> simp

/-- Witness for C4: the spec's fixed-commission scenario — product with
`commission_type = 'fixed'`, `commission_value = 15.00`; a conversion of
amount 500.00 stores commission 15.00 (independent of the amount). -/
theorem recordConversion_commission_correct_witness :
    resolveLinkProduct fixedProductDB "1-1-100" =
      some (⟨1, 1, 1, "1-1-100"⟩, ⟨1, "fixed", 15⟩) ∧
    (recordConversion fixedProductDB "1-1-100" 500).1 = .ok 15 := by
  refine ⟨by simp +decide [resolveLinkProduct, findLinkByCode, findProduct, fixedProductDB], ?_⟩
  have h := (recordConversion_commission_correct fixedProductDB "1-1-100" 500
    ⟨1, 1, 1, "1-1-100"⟩ ⟨1, "fixed", 15⟩
    (by simp +decide [resolveLinkProduct, findLinkByCode, findProduct, fixedProductDB])).1
  simpa using h

/-- Claim C10: the `else` branch of the commission computation is a
catch-all — any `commission_type` other than `'percentage'` (empty, NULL-ish
or misspelled included) stores exactly the product's `commission_value`,
whatever the conversion amount. -/
theorem recordConversion_default_fixed (db : DB) (code : String) (amt : Rat)
    (l : Link) (pr : Product) (h : resolveLinkProduct db code = some (l, pr))
    (hct : pr.commissionType ≠ "percentage") :
    (recordConversion db code amt).1 = .ok pr.commissionValue := by
  simp [recordConversion, h, computeCommission, hct]

/-- Witness for C10: a product whose `commission_type` is the empty string
still yields the fixed `commission_value` 20.00 on a 500.00 conversion. -/
theorem recordConversion_default_fixed_witness :
    (recordConversion emptyTypeDB "1-1-100" 500).1 = .ok 20 := by
  have h := recordConversion_default_fixed emptyTypeDB "1-1-100" 500
    ⟨1, 1, 1, "1-1-100"⟩ ⟨1, "", 20⟩
    (by simp +decide [resolveLinkProduct, findLinkByCode, findProduct, emptyTypeDB])
    (by decide)
  simpa using h

/-! ## Claim C5: idempotent link generation -/

/-- If no link for the pair is present, appending a freshly inserted link
that matches the pair makes the pair lookup return exactly it. -/
lemma find?_pair_append (links : List Link) (u p : Nat) (nl : Link)
    (h : links.find? (fun l => l.userId == u && l.productId == p) = none)
    (hu : nl.userId = u) (hp : nl.productId = p) :
    (links ++ [nl]).find? (fun l => l.userId == u && l.productId == p) = some nl := by
  rw [List.find?_append, h]
  simp [List.find?, hu, hp]

/-- If no element of `links` satisfies `P`, appending one that does leaves
exactly one match. -/
lemma filter_pair_append (links : List Link) (P : Link → Bool) (nl : Link)
    (h : links.find? P = none) (hn : P nl = true) :
    ((links ++ [nl]).filter P).length = 1 := by
  rw [List.filter_append]
  have hnil : links.filter P = [] := by
    rw [List.filter_eq_nil_iff]
    intro a ha
    exact List.find?_eq_none.mp h a ha
  simp [hnil, hn]

/-- Claim C5: `createOrGetLink` is idempotent.  When a first call for
`(userId, productId)` succeeds with some link, a second call for the same
pair (at any timestamp) returns that very link, changes nothing, and the
number of link rows for the pair stays at most one. -/
theorem createOrGetLink_idempotent (db : DB) (u p t1 t2 : Nat) (l1 : Link)
    (h1 : (createOrGetLink db u p t1).1 = .ok l1) :
    (createOrGetLink (createOrGetLink db u p t1).2 u p t2).1 = .ok l1 ∧
    (createOrGetLink (createOrGetLink db u p t1).2 u p t2).2 =
      (createOrGetLink db u p t1).2 ∧
    (countLinksFor db u p ≤ 1 →
      countLinksFor (createOrGetLink db u p t1).2 u p ≤ 1) := by
  cases hfind : findLinkByPair db u p with
  | some l =>
    simp only [createOrGetLink, hfind] at h1 ⊢
    exact ⟨h1, trivial, fun hc => hc⟩
  | none =>
    by_cases hg : (db.users.contains u
        && db.products.any (fun pr => pr.id == p)
        && !(db.links.any (fun l => l.linkCode == mkLinkCode u p t1))) = true
    · simp only [createOrGetLink, hfind, hg, if_true] at h1 ⊢
      have hfind2 : findLinkByPair
          { db with links := db.links ++ [⟨db.nextLinkId, u, p, mkLinkCode u p t1⟩],
                    nextLinkId := db.nextLinkId + 1 } u p =
          some ⟨db.nextLinkId, u, p, mkLinkCode u p t1⟩ := by
        unfold findLinkByPair at hfind ⊢
        exact find?_pair_append db.links u p _ hfind rfl rfl
      simp only [hfind2]
      refine ⟨h1, trivial, fun _ => ?_⟩
      unfold countLinksFor
      simp only []
      have := filter_pair_append db.links
        (fun l => l.userId == u && l.productId == p)
        ⟨db.nextLinkId, u, p, mkLinkCode u p t1⟩ hfind (by simp)
      omega
    · simp only [createOrGetLink, hfind, hg, if_false] at h1
      exact absurd h1 (by simp)

/-- Witness for C5: on a state with user 1 and product 1 but no link yet,
the first call creates link `1-1-50` and the second call returns the same
link, leaving at most one row for the pair. -/
theorem createOrGetLink_idempotent_witness :
    (createOrGetLink linkFreeDB 1 1 50).1 = .ok ⟨1, 1, 1, "1-1-50"⟩ ∧
    (createOrGetLink (createOrGetLink linkFreeDB 1 1 50).2 1 1 60).1 =
      .ok ⟨1, 1, 1, "1-1-50"⟩ ∧
    countLinksFor (createOrGetLink linkFreeDB 1 1 50).2 1 1 ≤ 1 := by
  have h1 : (createOrGetLink linkFreeDB 1 1 50).1 = .ok ⟨1, 1, 1, "1-1-50"⟩ := by
    simp +decide [createOrGetLink, findLinkByPair, mkLinkCode, linkFreeDB]
  have h := createOrGetLink_idempotent linkFreeDB 1 1 50 60 ⟨1, 1, 1, "1-1-50"⟩ h1
  exact ⟨h1, h.1, h.2.2 (by decide)⟩

/-! ## Claim C8: link generation for a missing product -/

/-- Claim C8 amended: when the product does not exist (and the state
respects the schema's foreign keys, so no link row can reference it),
`createOrGetLink` fails — the `INSERT` hits the `REFERENCES products(id)`
constraint and the handler answers the generic HTTP 500
`Failed to generate affiliate link`, not a `NotFound` — and the state is
unchanged, so no link row is created. -/
theorem createOrGetLink_missing_product (db : DB) (u p t : Nat)
    (hp : db.products.any (fun pr => pr.id == p) = false)
    (hwf : linksReferenceProducts db = true) :
    createOrGetLink db u p t =
      (.error (.serverError "Failed to generate affiliate link"), db) := by
  have hfind : findLinkByPair db u p = none := by
    unfold findLinkByPair
    rw [List.find?_eq_none]
    intro l hl hpl
    have hlp : l.productId = p := by
      simp only [Bool.and_eq_true, beq_iff_eq] at hpl
      exact hpl.2
    have hany : db.products.any (fun pr => pr.id == l.productId) = true := by
      have hall := List.all_eq_true.mp hwf l hl
      exact hall
    rw [hlp, hp] at hany
    exact absurd hany (by simp)
  simp only [createOrGetLink, hfind]
  simp [hp]

/-- Claim C8, as stated, is false on this source: with user 1 and an empty
products table, `createOrGetLink` answers the generic 500 error, which is
not a `NotFound` response (the handler never looks the product up; only the
foreign-key constraint stops the insert). -/
theorem createOrGetLink_missing_product_counterexample :
    createOrGetLink noProductDB 1 1 7 =
      (.error (.serverError "Failed to generate affiliate link"), noProductDB) ∧
    isNotFoundResult (createOrGetLink noProductDB 1 1 7).1 = false := by
  constructor <;>
    simp +decide [createOrGetLink, findLinkByPair, mkLinkCode, noProductDB,
      isNotFoundResult]

/-- Witness for the amended C8 at user 2, product 5. -/
theorem createOrGetLink_missing_product_witness :
    createOrGetLink noProductDB 2 5 9 =
      (.error (.serverError "Failed to generate affiliate link"), noProductDB) :=
  createOrGetLink_missing_product noProductDB 2 5 9 (by decide) (by decide)

/-! ## Claim C9: click / conversion tracking -/

/-- Claim C9: for a link code that does not resolve, `recordClick` and
`recordConversion` both answer 404 `Link not found` and leave the state
unchanged; for a code that resolves (in a state respecting the schema's
foreign keys), each succeeds and appends exactly one row to its table,
touching nothing else. -/
theorem tracking_resolution (db : DB) (code ipAddress userAgent : String)
    (amt : Rat) (hwf : linksReferenceProducts db = true) :
    (findLinkByCode db code = none →
      recordClick db code ipAddress userAgent =
        (.error (.notFound "Link not found"), db) ∧
      recordConversion db code amt = (.error (.notFound "Link not found"), db)) ∧
    (∀ l, findLinkByCode db code = some l →
      ((recordClick db code ipAddress userAgent).1 = .ok () ∧
        (recordClick db code ipAddress userAgent).2 =
          { db with clicks := db.clicks ++ [⟨db.nextClickId, l.id, ipAddress, userAgent⟩],
                    nextClickId := db.nextClickId + 1 }) ∧
      (∃ r, (recordConversion db code amt).1 = .ok r) ∧
      (∃ cv, (recordConversion db code amt).2 =
        { db with conversions := db.conversions ++ [cv],
                  nextConversionId := db.nextConversionId + 1 })) := by
  constructor
  · intro hnone
    constructor
    · simp [recordClick, hnone]
    · simp [recordConversion, resolveLinkProduct, hnone]
  · intro l hsome
    have hprod : ∃ pr, findProduct db l.productId = some pr := by
      have hmem : l ∈ db.links := List.mem_of_find?_eq_some hsome
      have hany := List.all_eq_true.mp hwf l hmem
      have hs : (db.products.find? (fun q => q.id == l.productId)).isSome := by
        rw [List.find?_isSome]
        obtain ⟨x, hx, hpx⟩ := List.any_eq_true.mp hany
        exact ⟨x, hx, hpx⟩
      obtain ⟨pr, hpr⟩ := Option.isSome_iff_exists.mp hs
      exact ⟨pr, hpr⟩
    obtain ⟨pr, hpr⟩ := hprod
    simp only [findProduct] at hpr
    refine ⟨⟨by simp [recordClick, hsome], by simp [recordClick, hsome]⟩,
      ⟨computeCommission pr.commissionType pr.commissionValue amt,
        by simp [recordConversion, resolveLinkProduct, findProduct, hsome, hpr]⟩,
      ⟨⟨db.nextConversionId, l.id, amt,
          computeCommission pr.commissionType pr.commissionValue amt⟩,
        by simp [recordConversion, resolveLinkProduct, findProduct, hsome, hpr]⟩⟩

/-- Witness for C9: on the scenario state, the unresolved code `nope` is
answered with 404 and no state change, while the resolving code `1-1-100`
is tracked successfully. -/
theorem tracking_resolution_witness :
    linksReferenceProducts scenarioApprovedDB = true ∧
    recordClick scenarioApprovedDB "nope" "ip" "ua" =
      (.error (.notFound "Link not found"), scenarioApprovedDB) ∧
    (recordClick scenarioApprovedDB "1-1-100" "ip" "ua").1 = .ok () := by
  have hwf : linksReferenceProducts scenarioApprovedDB = true := by decide
  refine ⟨hwf, ?_, ?_⟩
  · exact ((tracking_resolution scenarioApprovedDB "nope" "ip" "ua" 5 hwf).1
      (by decide)).1
  · exact (((tracking_resolution scenarioApprovedDB "1-1-100" "ip" "ua" 5 hwf).2
      ⟨1, 1, 1, "1-1-100"⟩ (by decide)).1).1
